import Mathlib

set_option linter.unusedVariables false

/-!
Shallow embedding of the request-handling core of the `tide` HTTP toolkit
(src/body.rs, src/server.rs), together with the parts of the data model that
the spec describes for files not present in the sources (Request, Response,
the `StatusCode → Response` conversion, and the router/middleware interface,
which are modelled from the spec where noted).

Conventions of the embedding:
- Byte buffers (`Vec<u8>`) are `List Nat`.
- Stream/IO errors (`Box<dyn Error>`) are `String`.
- `async` futures are modelled by their eventual value; an extractor's
  `extract()` returns the pair (request state after the synchronous part,
  value of the returned future).
- `&mut self` methods are modelled by explicit state passing:
  `Body.read_to_vec` returns its result together with the body's state after
  the read (a streaming body's chunks are consumed by reading).
- External codec crates (serde_json, serde_qs, std's UTF-8 machinery, the
  multipart crate) are external collaborators per the spec; they enter the
  embedding as explicit codec parameters.
- A Rust `panic!`/`.unwrap()` failure is `Option.none` in the embedding.
-/

namespace Tide

/-- Stream error type (`type Error = Box<dyn std::error::Error + Send + Sync>`
in src/body.rs); modelled as a string message. -/
abbrev Error := String

deriving instance DecidableEq for Except

/-- `enum BodyInner { Streaming(BodyStream), Fixed(Vec<u8>) }` from src/body.rs.
A streaming body is a finite sequence of fallible chunks, each chunk a byte
buffer (`BodyChunk` wraps a byte buffer). -/
inductive BodyInner where
  | Streaming : List (Except Error (List Nat)) → BodyInner
  | Fixed : List Nat → BodyInner
deriving DecidableEq

/-- `pub struct Body { inner: BodyInner }` from src/body.rs. -/
structure Body where
  inner : BodyInner
deriving DecidableEq

/-- `Body::empty()` from src/body.rs: a fixed body over an empty vector. -/
def Body.empty : Body :=
  ⟨.Fixed []⟩

/-- The loop of `Body::read_to_vec` on a streaming body (src/body.rs lines
64-71): repeatedly await the next chunk, extending the accumulator, and
return early with the error if a chunk is an error (`chunk?`). The second
component is the state of the stream after the loop finishes: exhausted on
success, the not-yet-delivered chunks after an early error return. -/
def consumeChunks : List (Except Error (List Nat)) →
    Except Error (List Nat) × List (Except Error (List Nat))
  | [] => (.ok [], [])
  | .error e :: rest => (.error e, rest)
  | .ok bs :: rest =>
    match consumeChunks rest with
    | (.ok more, rem) => (.ok (bs ++ more), rem)
    | (.error e, rem) => (.error e, rem)

/-- `Body::read_to_vec(&mut self)` from src/body.rs: a fixed body yields a
copy of its buffer (`v.clone()`) and is left unchanged; a streaming body
drives its stream. The `&mut self` receiver is modelled by returning the
body's state after the call alongside the result. -/
def Body.read_to_vec : Body → Except Error (List Nat) × Body
  | ⟨.Fixed v⟩ => (.ok v, ⟨.Fixed v⟩)
  | ⟨.Streaming s⟩ =>
    match consumeChunks s with
    | (r, rem) => (r, ⟨.Streaming rem⟩)

/-- Modelled from the spec: `request.rs` is not among the sources. Spec §3:
"Request: owns method, path, header map, and a Body." Header names are kept
lowercase, as the `http` crate's `HeaderMap` stores them. -/
structure Request where
  method : String
  path : String
  headers : List (String × String)
  body : Body
deriving DecidableEq

/-- Modelled from the spec: `response.rs` is not among the sources. Spec §3:
"Response: owns status, header map, Body." -/
structure Response where
  status : Nat
  headers : List (String × String)
  body : Body
deriving DecidableEq

/-- Modelled from the spec: RouteMatch is "an ordered set of (captured
segment name → substring) pairs" (spec §3); none of the embedded extractors
reads it. -/
abbrev RouteMatch := List (String × String)

/-- HTTP status codes (`http::status::StatusCode`), as bare numerals. -/
abbrev StatusCode := Nat

/-- `StatusCode::BAD_REQUEST`. -/
def BAD_REQUEST : StatusCode := 400

/-- `StatusCode::NOT_FOUND`. -/
def NOT_FOUND : StatusCode := 404

/-- Modelled from the spec: the `IntoResponse` impl for `StatusCode` lives in
the missing `response.rs`; spec §4.5 describes it as "an empty-body response
carrying that status". -/
def StatusCode.into_response (c : StatusCode) : Response :=
  ⟨c, [], Body.empty⟩

/-- `fn mk_err<T>(_: T) -> Response` from src/body.rs: discards its argument
and returns `StatusCode::BAD_REQUEST.into_response()`. -/
def mk_err {A : Type} (_e : A) : Response :=
  StatusCode.into_response BAD_REQUEST

/-- The `serde_json` functions used by `Json` (src/body.rs): an external
codec collaborator, passed in as an interface. `to_vec` is
`serde_json::to_vec`, `from_slice` is `serde_json::from_slice`. -/
structure JsonCodec (T : Type) where
  to_vec : T → Except String (List Nat)
  from_slice : List Nat → Except String T

/-- `pub struct Json<T>(pub T)` from src/body.rs. -/
structure Json (T : Type) where
  val : T
deriving DecidableEq

/-- The future returned by `Json::extract` (src/body.rs lines 167-173): await
`body.read_to_vec()`, mapping an error through `mk_err`; then
`serde_json::from_slice`, mapping an error through `mk_err`; on success wrap
in `Json`. The moved-out body's final state is the second component. -/
def Json.future {T : Type} (codec : JsonCodec T) (body : Body) :
    Except Response (Json T) × Body :=
  match body.read_to_vec with
  | (.error e, b) => (.error (mk_err e), b)
  | (.ok bytes, b) =>
    match codec.from_slice bytes with
    | .error e => (.error (mk_err e), b)
    | .ok v => (.ok ⟨v⟩, b)

/-- `Json::extract` (src/body.rs lines 165-174): synchronously
`std::mem::replace`s the request's body with `Body::empty()`, then returns
the future over the moved-out body. Result: (request after the synchronous
part, value of the returned future). -/
def Json.extract {T S : Type} (codec : JsonCodec T) (data : S) (req : Request)
    (params : RouteMatch) : Request × (Except Response (Json T) × Body) :=
  let body := req.body
  let req := { req with body := Body.empty }
  (req, Json.future codec body)

/-- The `serde_qs` functions used by `Form` (src/body.rs): an external codec
collaborator. `to_string` is `serde_qs::to_string`, `from_bytes` is
`serde_qs::from_bytes`. -/
structure QsCodec (T : Type) where
  to_string : T → Except String String
  from_bytes : List Nat → Except String T

/-- `pub struct Form<T>(pub T)` from src/body.rs. -/
structure Form (T : Type) where
  val : T
deriving DecidableEq

/-- The future returned by `Form::extract` (src/body.rs lines 201-207):
read the body, then `serde_qs::from_bytes`, each failure mapped through
`mk_err`. -/
def Form.future {T : Type} (codec : QsCodec T) (body : Body) :
    Except Response (Form T) × Body :=
  match body.read_to_vec with
  | (.error e, b) => (.error (mk_err e), b)
  | (.ok bytes, b) =>
    match codec.from_bytes bytes with
    | .error e => (.error (mk_err e), b)
    | .ok v => (.ok ⟨v⟩, b)

/-- `Form::extract` (src/body.rs lines 199-208): same consume-once pattern
as `Json::extract`, with `serde_qs` as the terminal decode step. -/
def Form.extract {T S : Type} (codec : QsCodec T) (data : S) (req : Request)
    (params : RouteMatch) : Request × (Except Response (Form T) × Body) :=
  let body := req.body
  let req := { req with body := Body.empty }
  (req, Form.future codec body)

/-- `pub struct Str(pub String)` from src/body.rs. -/
structure Str where
  val : String
deriving DecidableEq

/-- The future returned by `Str::extract` (src/body.rs lines 232-238): read
the body, then `String::from_utf8` (std, external; passed as `from_utf8`),
each failure mapped through `mk_err`. -/
def Str.future (from_utf8 : List Nat → Except String String) (body : Body) :
    Except Response Str × Body :=
  match body.read_to_vec with
  | (.error e, b) => (.error (mk_err e), b)
  | (.ok bytes, b) =>
    match from_utf8 bytes with
    | .error e => (.error (mk_err e), b)
    | .ok s => (.ok ⟨s⟩, b)

/-- `Str::extract` (src/body.rs lines 229-239): consume-once pattern with a
strict UTF-8 decode as the terminal step. -/
def Str.extract {S : Type} (from_utf8 : List Nat → Except String String)
    (data : S) (req : Request) (params : RouteMatch) :
    Request × (Except Response Str × Body) :=
  let body := req.body
  let req := { req with body := Body.empty }
  (req, Str.future from_utf8 body)

/-- `pub struct StrLossy(pub String)` from src/body.rs. -/
structure StrLossy where
  val : String
deriving DecidableEq

/-- The future returned by `StrLossy::extract` (src/body.rs lines 250-256):
read the body, then `String::from_utf8_lossy` (std, external; passed as
`from_utf8_lossy`), which never fails. -/
def StrLossy.future (from_utf8_lossy : List Nat → String) (body : Body) :
    Except Response StrLossy × Body :=
  match body.read_to_vec with
  | (.error e, b) => (.error (mk_err e), b)
  | (.ok bytes, b) => (.ok ⟨from_utf8_lossy bytes⟩, b)

/-- `StrLossy::extract` (src/body.rs lines 247-257): consume-once pattern
with a lossy UTF-8 decode as the terminal step. -/
def StrLossy.extract {S : Type} (from_utf8_lossy : List Nat → String)
    (data : S) (req : Request) (params : RouteMatch) :
    Request × (Except Response StrLossy × Body) :=
  let body := req.body
  let req := { req with body := Body.empty }
  (req, StrLossy.future from_utf8_lossy body)

/-- `pub struct Bytes(pub Vec<u8>)` from src/body.rs. -/
structure Bytes where
  val : List Nat
deriving DecidableEq

/-- The future returned by `Bytes::extract` (src/body.rs lines 268-273):
read the body; no decode step. -/
def Bytes.future (body : Body) : Except Response Bytes × Body :=
  match body.read_to_vec with
  | (.error e, b) => (.error (mk_err e), b)
  | (.ok bytes, b) => (.ok ⟨bytes⟩, b)

/-- `Bytes::extract` (src/body.rs lines 265-274): consume-once pattern with
no terminal decode step. -/
def Bytes.extract {S : Type} (data : S) (req : Request) (params : RouteMatch) :
    Request × (Except Response Bytes × Body) :=
  let body := req.body
  let req := { req with body := Body.empty }
  (req, Bytes.future body)

/-- The boundary lookup of `MultipartForm::extract` (src/body.rs lines
137-139): `ct.find("boundary=")` takes the first occurrence, and
`ct[idx + 9..]` is everything after it. Implemented as a first-occurrence
scan over the character list. -/
def dropAfterMarker (marker : List Char) : List Char → Option (List Char)
  | [] => none
  | c :: rest =>
    if (c :: rest).take marker.length = marker then
      some ((c :: rest).drop marker.length)
    else
      dropAfterMarker marker rest

/-- `MultipartForm::extract`'s boundary parse of one `content-type` value:
the substring after the first `boundary=`, if present (src/body.rs lines
135-140). -/
def boundaryAfter (ct : String) : Option String :=
  match dropAfterMarker "boundary=".data ct.data with
  | none => none
  | some cs => some (String.mk cs)

/-- `pub struct MultipartForm(pub Multipart<Cursor<Vec<u8>>>)` from
src/body.rs. `Multipart::with_body(Cursor::new(body), boundary)` is from the
external multipart crate and only wraps its two arguments, so the model
stores the body bytes and the boundary. -/
structure MultipartForm where
  body : List Nat
  boundary : String
deriving DecidableEq

/-- The future returned by `MultipartForm::extract` (src/body.rs lines
145-150): FIRST await `body.read_to_vec()` (error mapped through `mk_err`),
THEN check the boundary (`boundary.ok_or(()).map_err(mk_err)?`), then wrap.
The body is read before the missing-boundary failure is produced. -/
def MultipartForm.future (boundary : Option String) (body : Body) :
    Except Response MultipartForm × Body :=
  match body.read_to_vec with
  | (.error e, b) => (.error (mk_err e), b)
  | (.ok bytes, b) =>
    match boundary with
    | none => (.error (mk_err ()), b)
    | some bd => (.ok ⟨bytes, bd⟩, b)

/-- `MultipartForm::extract` (src/body.rs lines 132-152): synchronously
computes the boundary from the `content-type` header (`headers().get`
returns the first value; `to_str` is the identity here since header values
are strings in the model), then replaces the request's body with
`Body::empty()` and returns the future over the moved-out body. -/
def MultipartForm.extract {S : Type} (data : S) (req : Request)
    (params : RouteMatch) : Request × (Except Response MultipartForm × Body) :=
  let boundary := (req.headers.lookup "content-type").bind boundaryAfter
  let body := req.body
  let req := { req with body := Body.empty }
  (req, MultipartForm.future boundary body)

/-- The UTF-8 encoding of one character, as `String::into_bytes` produces it
(standard UTF-8; used to model `serde_qs::to_string(..).unwrap().into_bytes()`
in `Form::into_response`). -/
def utf8EncodeChar (c : Char) : List Nat :=
  let n := c.toNat
  if n < 0x80 then [n]
  else if n < 0x800 then
    [0xC0 ||| (n >>> 6), 0x80 ||| (n &&& 0x3F)]
  else if n < 0x10000 then
    [0xE0 ||| (n >>> 12), 0x80 ||| ((n >>> 6) &&& 0x3F), 0x80 ||| (n &&& 0x3F)]
  else
    [0xF0 ||| (n >>> 18), 0x80 ||| ((n >>> 12) &&& 0x3F),
     0x80 ||| ((n >>> 6) &&& 0x3F), 0x80 ||| (n &&& 0x3F)]

/-- The UTF-8 bytes of a string (`String::into_bytes`). -/
def utf8Bytes (s : String) : List Nat :=
  (s.data.map utf8EncodeChar).flatten

/-- `impl IntoResponse for Json<T>` (src/body.rs lines 177-186): builds a
response with status `OK`, header `Content-Type: application/json`, and body
`serde_json::to_vec(&self.0).unwrap()`. The `.unwrap()` on the serialization
result panics when serialization fails, so the model returns `none` there
(no Response is produced); the builder's own `.unwrap()` cannot fail for
these fixed, valid parts. -/
def Json.into_response {T : Type} (codec : JsonCodec T) (v : Json T) :
    Option Response :=
  match codec.to_vec v.val with
  | .error _ => none
  | .ok bytes =>
    some ⟨200, [("Content-Type", "application/json")], ⟨.Fixed bytes⟩⟩

/-- `impl IntoResponse for Form<T>` (src/body.rs lines 211-222): status `OK`,
header `Content-Type: application/x-www-form-urlencoded`, and body
`serde_qs::to_string(&self.0).unwrap().into_bytes()`; the serialization
`.unwrap()` panics (`none`) when serialization fails. -/
def Form.into_response {T : Type} (codec : QsCodec T) (v : Form T) :
    Option Response :=
  match codec.to_string v.val with
  | .error _ => none
  | .ok s =>
    some ⟨200, [("Content-Type", "application/x-www-form-urlencoded")],
          ⟨.Fixed (utf8Bytes s)⟩⟩

/-- The 404 response built by `Server::call`'s no-match branch (src/server.rs
lines 138-141): status `NOT_FOUND`, no headers added, `hyper::Body::empty()`. -/
def notFoundResponse : Response :=
  ⟨NOT_FOUND, [], Body.empty⟩

/-- `Server::call` (src/server.rs lines 112-146): routes
`(req.path, req.method)` through the frozen router; on a match, builds the
`RequestContext` and drives it to a response; on no match, returns the 404
response. `router.rs` and `middleware.rs` are not among the sources, so the
route table is an abstract function `route` with abstract match payload `R`
(spec §4.1: `route(path, method) -> Option<RouteResult>`), and the
`RequestContext`/`ctx.next()` pipeline is the abstract `dispatch` (spec
§4.2). -/
def Server.call {R : Type} (route : String → String → Option R)
    (dispatch : R → Request → Response) (req : Request) : Response :=
  match route req.path req.method with
  | some r => dispatch r req
  | none => notFoundResponse

/-- `pub struct AppData<T>(pub T)` from src/server.rs. -/
structure AppData (T : Type) where
  val : T
deriving DecidableEq

/-- `AppData::extract` (src/server.rs lines 169-171):
`future::ok(AppData(data.clone()))` — an immediately-ready successful future
holding a clone of the shared state handle; the request and the route match
are untouched. Cloning a pure value is the identity. -/
def AppData.extract {T : Type} (data : T) (req : Request) (params : RouteMatch) :
    Except Response (AppData T) :=
  .ok ⟨data⟩

/-! ### Concrete inputs used by witnesses and counterexamples -/

/-- A request for an unregistered path. -/
def reqNope : Request := ⟨"GET", "/nope", [], ⟨.Fixed [1]⟩⟩

/-- A multipart request whose `content-type` lacks `boundary=` and whose body
is a streaming body with one chunk. -/
def mpReq : Request :=
  ⟨"POST", "/up", [("content-type", "text/plain")], ⟨.Streaming [.ok [7]]⟩⟩

/-- Another request lacking `boundary=`, with a fixed body. -/
def mpReqW : Request :=
  ⟨"POST", "/up2", [("content-type", "application/json")], ⟨.Fixed [3]⟩⟩

/-- A concrete JSON codec on `Nat`: one byte holding the value. -/
def jcW : JsonCodec Nat :=
  ⟨fun n => .ok [n], fun bs => match bs with | [n] => .ok n | _ => .error "bad"⟩

/-- A concrete form codec on `Nat`. -/
def qcW : QsCodec Nat :=
  ⟨fun _ => .ok "n=5", fun bs => match bs with | [n] => .ok n | _ => .error "bad"⟩

/-- A request with body byte 5, for the extractor witnesses. -/
def reqW5 : Request := ⟨"POST", "/j", [], ⟨.Fixed [5]⟩⟩

/-- A round-trip JSON codec on `Nat`. -/
def jcRt : JsonCodec Nat :=
  ⟨fun n => .ok [n], fun bs => match bs with | [n] => .ok n | _ => .error "bad"⟩

/-- A bodyless request for the round-trip witness. -/
def reqRt : Request := ⟨"GET", "/rt", [], Body.empty⟩

/-- The response produced by the round-trip witness serialization. -/
def respRt : Response :=
  ⟨200, [("Content-Type", "application/json")], ⟨.Fixed [42]⟩⟩

/-- A JSON codec whose serialization duplicates the byte. -/
def jc7 : JsonCodec Nat := ⟨fun n => .ok [n, n], fun _ => .error "x"⟩

/-- A form codec serializing everything to `"a=1"`. -/
def qc7 : QsCodec Nat := ⟨fun _ => .ok "a=1", fun _ => .error "x"⟩

/-- A JSON codec whose serialization always fails. -/
def jcFail : JsonCodec Nat := ⟨fun _ => .error "ser", fun _ => .error "de"⟩

/-- A form codec whose serialization always fails. -/
def qcFail : QsCodec Nat := ⟨fun _ => .error "ser", fun _ => .error "de"⟩

/-- A request for the app-data witness. -/
def reqW9 : Request := ⟨"GET", "/d", [], Body.empty⟩

/-! ### Helper lemmas -/

/-- Reading a stream of error-free chunks concatenates them in delivery order
and exhausts the stream. -/
lemma consumeChunks_map_ok (chunks : List (List Nat)) :
    consumeChunks (chunks.map Except.ok) = (.ok chunks.flatten, []) := by
  induction chunks with
  | nil => rfl
  | cons c rest ih => simp [consumeChunks, ih]

/-- Reading a stream hits an error exactly when some chunk is an error. -/
lemma consumeChunks_error_iff (s : List (Except Error (List Nat))) :
    (∃ e, (consumeChunks s).1 = .error e) ↔ ∃ e, Except.error e ∈ s := by
  induction s with
  | nil => simp [consumeChunks]
  | cons c rest ih =>
    cases c with
    | error e => simp [consumeChunks]
    | ok bs =>
      rcases h : consumeChunks rest with ⟨r, rem⟩
      cases r <;> simp_all [consumeChunks]

/-! ### Claim theorems -/

/-- C1: Body consume-once. After any body-consuming extractor (`Json`, `Form`,
`Str`, `StrLossy`, `Bytes`, `MultipartForm`) takes the `Body` in `extract()`,
a second read of the request's body returns `Ok` of the empty byte vector —
never the original content and never an error. -/
theorem body_consume_once {T S : Type} (jc : JsonCodec T) (qc : QsCodec T)
    (fu : List Nat → Except String String) (lo : List Nat → String)
    (d : S) (req : Request) (p : RouteMatch) :
    ((Json.extract jc d req p).1.body.read_to_vec = (.ok [], Body.empty))
    ∧ ((Form.extract qc d req p).1.body.read_to_vec = (.ok [], Body.empty))
    ∧ ((Str.extract fu d req p).1.body.read_to_vec = (.ok [], Body.empty))
    ∧ ((StrLossy.extract lo d req p).1.body.read_to_vec = (.ok [], Body.empty))
    ∧ ((Bytes.extract d req p).1.body.read_to_vec = (.ok [], Body.empty))
    ∧ ((MultipartForm.extract d req p).1.body.read_to_vec = (.ok [], Body.empty)) :=
  ⟨rfl, rfl, rfl, rfl, rfl, rfl⟩

/-- C2: `Body::empty()` is a zero-length buffered body; `read_to_vec` returns
a copy of the buffer for a buffered body, the in-delivery-order concatenation
of the chunks for a streaming body (no reordering or deduplication), and an
error exactly when some chunk of the stream is an error. -/
theorem read_to_vec_contract :
    (Body.empty = ⟨.Fixed []⟩)
    ∧ (∀ v : List Nat, (Body.mk (.Fixed v)).read_to_vec.1 = .ok v)
    ∧ (∀ chunks : List (List Nat),
        (Body.mk (.Streaming (chunks.map Except.ok))).read_to_vec.1 =
          .ok chunks.flatten)
    ∧ (∀ s : List (Except Error (List Nat)),
        (∃ e, (Body.mk (.Streaming s)).read_to_vec.1 = .error e) ↔
          ∃ e, Except.error e ∈ s) := by
  refine ⟨rfl, fun v => rfl, fun chunks => ?_, fun s => ?_⟩
  · simp [Body.read_to_vec, consumeChunks_map_ok]
  · rcases h : consumeChunks s with ⟨r, rem⟩
    have := consumeChunks_error_iff s
    rw [h] at this
    simpa [Body.read_to_vec, h] using this

/-- C9: App-data extraction always succeeds: for every app-data value,
request, and route match, `AppData::extract` returns `Ok` of a clone of the
shared state handle, and never the error (`Response`) variant. -/
theorem app_data_extract_total {T : Type} (data : T) (req : Request)
    (p : RouteMatch) :
    AppData.extract data req p = .ok ⟨data⟩
    ∧ ∀ r : Response, AppData.extract data req p ≠ .error r :=
  ⟨rfl, fun r h => Except.noConfusion h⟩

theorem app_data_extract_total_witness :
    AppData.extract (7 : Nat) reqW9 [] = .ok ⟨7⟩ :=
  (app_data_extract_total 7 reqW9 []).1

/-- C10: every body-consuming extractor's `extract()` replaces the request's
`Body` with the empty body in its synchronous part (the first component,
produced before the returned future is awaited), leaves it replaced
regardless of whether the future later succeeds or fails (the future acts
only on the moved-out body, never on the request), and modifies no other
field of the request: the post-extract request is exactly
`{ req with body := Body.empty }`. -/
theorem extract_replaces_body_only {T S : Type} (jc : JsonCodec T)
    (qc : QsCodec T) (fu : List Nat → Except String String)
    (lo : List Nat → String) (d : S) (req : Request) (p : RouteMatch) :
    ((Json.extract jc d req p).1 = { req with body := Body.empty })
    ∧ ((Form.extract qc d req p).1 = { req with body := Body.empty })
    ∧ ((Str.extract fu d req p).1 = { req with body := Body.empty })
    ∧ ((StrLossy.extract lo d req p).1 = { req with body := Body.empty })
    ∧ ((Bytes.extract d req p).1 = { req with body := Body.empty })
    ∧ ((MultipartForm.extract d req p).1 = { req with body := Body.empty }) :=
  ⟨rfl, rfl, rfl, rfl, rfl, rfl⟩

/-- C3: for every inbound request whose path/method the router does not
match (`route` returns `none`), `Server::call` produces a response with
status 404 and an empty body; the request's method is arbitrary. -/
theorem routing_miss_404 {R : Type} (route : String → String → Option R)
    (dispatch : R → Request → Response) (req : Request)
    (h : route req.path req.method = none) :
    (Server.call route dispatch req).status = 404
    ∧ (Server.call route dispatch req).body.read_to_vec.1 = .ok [] := by
  constructor <;>
    simp [Server.call, h, notFoundResponse, NOT_FOUND, Body.empty,
      Body.read_to_vec]

theorem routing_miss_404_witness :
    (Server.call (fun _ _ => (none : Option Unit))
        (fun _ _ => notFoundResponse) reqNope).status = 404
    ∧ (Server.call (fun _ _ => (none : Option Unit))
        (fun _ _ => notFoundResponse) reqNope).body.read_to_vec.1 = .ok [] :=
  routing_miss_404 (fun _ _ => none) (fun _ _ => notFoundResponse) reqNope rfl

/-- C5: `Json::extract` and `Form::extract` replace the request's body with
the empty body, read the moved-out body, then deserialize; they yield the
typed value when the read and the decode succeed, and a 400-status `Response`
exactly when the body read fails or the decode fails. -/
theorem json_form_extract_contract {T S : Type} (jc : JsonCodec T)
    (qc : QsCodec T) (d : S) (req : Request) (p : RouteMatch) :
    ((Json.extract jc d req p).1 = { req with body := Body.empty })
    ∧ ((Form.extract qc d req p).1 = { req with body := Body.empty })
    ∧ (∀ bytes v, req.body.read_to_vec.1 = .ok bytes →
        jc.from_slice bytes = .ok v → (Json.extract jc d req p).2.1 = .ok ⟨v⟩)
    ∧ (∀ bytes v, req.body.read_to_vec.1 = .ok bytes →
        qc.from_bytes bytes = .ok v → (Form.extract qc d req p).2.1 = .ok ⟨v⟩)
    ∧ ((∃ r, (Json.extract jc d req p).2.1 = .error r ∧ r.status = 400) ↔
        ((∃ e, req.body.read_to_vec.1 = .error e) ∨
         (∃ bytes e, req.body.read_to_vec.1 = .ok bytes ∧
            jc.from_slice bytes = .error e)))
    ∧ ((∃ r, (Form.extract qc d req p).2.1 = .error r ∧ r.status = 400) ↔
        ((∃ e, req.body.read_to_vec.1 = .error e) ∨
         (∃ bytes e, req.body.read_to_vec.1 = .ok bytes ∧
            qc.from_bytes bytes = .error e))) := by
  rcases hb : req.body.read_to_vec with ⟨r, b⟩
  refine ⟨rfl, rfl, ?_, ?_, ?_, ?_⟩
  · intro bytes v h1 h2
    simp at h1
    subst h1
    simp [Json.extract, Json.future, hb, h2]
  · intro bytes v h1 h2
    simp at h1
    subst h1
    simp [Form.extract, Form.future, hb, h2]
  · cases r with
    | error e =>
      simp [Json.extract, Json.future, hb, mk_err, StatusCode.into_response, BAD_REQUEST]
    | ok bytes =>
      cases hf : jc.from_slice bytes with
      | error e =>
        simp [Json.extract, Json.future, hb, hf, mk_err,
          StatusCode.into_response, BAD_REQUEST]
      | ok v =>
        simp [Json.extract, Json.future, hb, hf]
  · cases r with
    | error e =>
      simp [Form.extract, Form.future, hb, mk_err, StatusCode.into_response, BAD_REQUEST]
    | ok bytes =>
      cases hf : qc.from_bytes bytes with
      | error e =>
        simp [Form.extract, Form.future, hb, hf, mk_err,
          StatusCode.into_response, BAD_REQUEST]
      | ok v =>
        simp [Form.extract, Form.future, hb, hf]

theorem json_form_extract_contract_witness :
    (Json.extract jcW () reqW5 []).2.1 = .ok ⟨5⟩
    ∧ (Form.extract qcW () reqW5 []).2.1 = .ok ⟨5⟩ :=
  ⟨(json_form_extract_contract jcW qcW () reqW5 []).2.2.1 [5] 5 rfl rfl,
   (json_form_extract_contract jcW qcW () reqW5 []).2.2.2.1 [5] 5 rfl rfl⟩

/-- C6: round-trip. For a value whose serialization succeeds and whose codec
decodes its own serialization back to the value (stable field order),
serializing through `Json::into_response` and extracting the resulting
response body through `Json::extract` yields the original value. -/
theorem json_round_trip {T S : Type} (codec : JsonCodec T) (v : T)
    (bytes : List Nat) (resp : Response) (req : Request) (d : S)
    (p : RouteMatch)
    (h1 : codec.to_vec v = .ok bytes)
    (h2 : codec.from_slice bytes = .ok v)
    (h3 : Json.into_response codec ⟨v⟩ = some resp) :
    (Json.extract codec d { req with body := resp.body } p).2.1 = .ok ⟨v⟩ := by
  simp only [Json.into_response, h1, Option.some.injEq] at h3
  subst h3
  simp [Json.extract, Json.future, Body.read_to_vec, h2]

theorem json_round_trip_witness :
    Json.into_response jcRt ⟨42⟩ = some respRt
    ∧ (Json.extract jcRt () { reqRt with body := respRt.body } []).2.1 =
        .ok ⟨42⟩ :=
  ⟨rfl, json_round_trip jcRt 42 [42] respRt reqRt () [] rfl rfl rfl⟩

/-- C7: for a value whose serialization succeeds, `Json::into_response`
yields status 200, header `Content-Type: application/json`, and body equal to
the JSON serialization; `Form::into_response` yields status 200, header
`Content-Type: application/x-www-form-urlencoded`, and body equal to the
UTF-8 bytes of the form-urlencoded serialization. -/
theorem into_response_contract {T : Type} (jc : JsonCodec T) (qc : QsCodec T)
    (v : T) (bytes : List Nat) (s : String)
    (hj : jc.to_vec v = .ok bytes) (hq : qc.to_string v = .ok s) :
    Json.into_response jc ⟨v⟩ =
      some ⟨200, [("Content-Type", "application/json")], ⟨.Fixed bytes⟩⟩
    ∧ Form.into_response qc ⟨v⟩ =
      some ⟨200, [("Content-Type", "application/x-www-form-urlencoded")],
            ⟨.Fixed (utf8Bytes s)⟩⟩ := by
  constructor <;> simp [Json.into_response, Form.into_response, hj, hq]

theorem into_response_contract_witness :
    Json.into_response jc7 ⟨3⟩ =
      some ⟨200, [("Content-Type", "application/json")], ⟨.Fixed [3, 3]⟩⟩
    ∧ Form.into_response qc7 ⟨3⟩ =
      some ⟨200, [("Content-Type", "application/x-www-form-urlencoded")],
            ⟨.Fixed [97, 61, 49]⟩⟩ := by
  have h := into_response_contract jc7 qc7 3 [3, 3] "a=1" rfl rfl
  exact ⟨h.1, by rw [h.2]; decide⟩

/-- C8 counterexample: at the always-failing serializer `jcFail` and value 0
the serialization fails, yet `Json::into_response` produces no `Response` at
all — the `.unwrap()` panic aborts the request's task instead of escalating
to a generic server-error response, so the claim is false as stated. -/
theorem into_response_panic_counterexample :
    jcFail.to_vec 0 = .error "ser" ∧ Json.into_response jcFail ⟨0⟩ = none :=
  ⟨rfl, rfl⟩

/-- C8 amended: when serialization of a value fails during `into_response`
(for either `Json` or `Form`), no `Response` is produced: the `.unwrap()`
panics and the request's task aborts; there is no fallback server-error
response. -/
theorem into_response_serialization_panic {T : Type} (jc : JsonCodec T)
    (qc : QsCodec T) (v : T) (e1 e2 : String)
    (hj : jc.to_vec v = .error e1) (hq : qc.to_string v = .error e2) :
    Json.into_response jc ⟨v⟩ = none ∧ Form.into_response qc ⟨v⟩ = none := by
  constructor <;> simp [Json.into_response, Form.into_response, hj, hq]

theorem into_response_serialization_panic_witness :
    Json.into_response jcFail ⟨0⟩ = none ∧ Form.into_response qcFail ⟨0⟩ = none :=
  into_response_serialization_panic jcFail qcFail 0 "ser" "ser" rfl rfl

/-- C4 counterexample: `mpReq`'s `content-type` lacks `boundary=`, and the
extraction future does resolve to a 400 response — but only after reading
the body: the moved-out streaming body's final state is the exhausted
stream, not the untouched one, so the failure is not produced "before even
reading the body". -/
theorem multipart_reads_body_before_failing :
    ((mpReq.headers.lookup "content-type").bind boundaryAfter = none)
    ∧ (MultipartForm.extract () mpReq []).2.1 =
        .error (StatusCode.into_response 400)
    ∧ (MultipartForm.extract () mpReq []).2.2 = ⟨.Streaming []⟩
    ∧ (MultipartForm.extract () mpReq []).2.2 ≠ mpReq.body := by
  exact ⟨by decide, by decide, by decide, by decide⟩

/-- C4 amended: multipart extraction inspects the `content-type` header for a
`boundary=` parameter synchronously in `extract()`, and for every request
whose `content-type` lacks `boundary=` the extraction future resolves to a
400-status response (so the endpoint is never invoked) — but the failure is
produced only after the body has been read: the moved-out body finishes in
its post-`read_to_vec` state. -/
theorem multipart_missing_boundary {S : Type} (d : S) (req : Request)
    (p : RouteMatch)
    (h : (req.headers.lookup "content-type").bind boundaryAfter = none) :
    (MultipartForm.extract d req p).2.1 =
      .error (StatusCode.into_response BAD_REQUEST)
    ∧ (StatusCode.into_response BAD_REQUEST).status = 400
    ∧ (MultipartForm.extract d req p).2.2 = req.body.read_to_vec.2 := by
  rcases hb : req.body.read_to_vec with ⟨r, b⟩
  cases r <;>
    simp [MultipartForm.extract, MultipartForm.future, h, hb, mk_err,
      StatusCode.into_response, BAD_REQUEST]

theorem multipart_missing_boundary_witness :
    (MultipartForm.extract () mpReqW []).2.1 =
      .error (StatusCode.into_response BAD_REQUEST)
    ∧ (StatusCode.into_response BAD_REQUEST).status = 400
    ∧ (MultipartForm.extract () mpReqW []).2.2 = mpReqW.body.read_to_vec.2 :=
  multipart_missing_boundary () mpReqW [] (by decide)

end Tide
